import Mathlib

/-!
Verification of the taxonomy parsing/validation/reconciliation engine of
`biolib` (`biolib/taxonomy.py`, class `Taxonomy`).

The Python source is shallowly embedded: Python `str` values become Lean
`String` (viewed as its list of characters), Python `dict`s become
association lists with in-place overwrite on key collision (preserving
insertion order, as Python dicts do for lookup purposes), Python `set`s
become duplicate-free lists, and Python exceptions (IndexError, KeyError,
AssertionError) become `Except Unit` errors.  A Python function that can
both raise and return `None` is embedded as `Except Unit (Option _)`,
where `.error ()` models a raised exception and `.ok none` models a
normal `return None`.
-/

deriving instance DecidableEq for Except

namespace Taxonomy

/-- Python `s[0:3]`: the first three characters of a string (shorter
strings are returned whole, as in Python slicing). -/
def pyTake3 (s : String) : String :=
  String.mk (s.data.take 3)

/-- Python `s.lower()` (ASCII case folding, which is all the source uses). -/
def pyLower (s : String) : String :=
  String.mk (s.data.map Char.toLower)

/-- Whether `sub` occurs as a contiguous run inside `l`. -/
def charListContains (sub : List Char) : List Char → Bool
  | [] => sub.isPrefixOf []
  | c :: rest => sub.isPrefixOf (c :: rest) || charListContains sub rest

/-- Python `sub in s`: substring containment. -/
def strContains (s sub : String) : Bool :=
  charListContains sub.data s.data

/-- Python `s.startswith(t)`. -/
def pyStartsWith (s t : String) : Bool :=
  t.data.isPrefixOf s.data

/-- Auxiliary worker for `pySplit`; accumulates the current segment in
reverse. -/
def pySplitAux (sep : Char) : List Char → List Char → List String
  | [], cur => [String.mk cur.reverse]
  | c :: rest, cur =>
    if c = sep then String.mk cur.reverse :: pySplitAux sep rest []
    else pySplitAux sep rest (c :: cur)

/-- Python `s.split(sep)` for a one-character separator: `""` yields
`[""]`, and a trailing separator yields a trailing empty segment, exactly
as in Python. -/
def pySplit (s : String) (sep : Char) : List String :=
  pySplitAux sep s.data []

/-- Python `s.strip()`: remove leading and trailing whitespace. -/
def pyStrip (s : String) : String :=
  String.mk (((s.data.dropWhile Char.isWhitespace).reverse.dropWhile Char.isWhitespace).reverse)

/-- Python `s.rstrip()`: remove trailing whitespace. -/
def pyRstrip (s : String) : String :=
  String.mk ((s.data.reverse.dropWhile Char.isWhitespace).reverse)

/-- Python `';'.join(taxa)`. -/
def pyJoinSemi : List String → String
  | [] => ""
  | [t] => t
  | t :: rest => t ++ ";" ++ pyJoinSemi rest

/-- `Taxonomy.rank_prefixes`: the 7 canonical rank prefix strings. -/
def rank_prefixes : List String :=
  ["d__", "p__", "c__", "o__", "f__", "g__", "s__"]

/-- `Taxonomy.rank_labels`: the 7 rank labels. -/
def rank_labels : List String :=
  ["domain", "phylum", "class", "order", "family", "genus", "species"]

/-- `Taxonomy.rank_index['s__']`, the only `rank_index` entry the embedded
methods use. -/
def rank_index_s : Nat := 6

/-- Python `d[k] = v` on a `dict` embedded as an association list: the
first existing binding of `k` is overwritten in place, otherwise the
binding is appended (matching dict insertion-order semantics). -/
def dInsert {α : Type} (d : List (String × α)) (k : String) (v : α) :
    List (String × α) :=
  match d with
  | [] => [(k, v)]
  | (k', v') :: rest =>
    if k' = k then (k, v) :: rest else (k', v') :: dInsert rest k v

/-- Python `d.get(k)` / `k in d` combined: `some v` when the key is
bound, `none` otherwise. -/
def dLookup {α : Type} (d : List (String × α)) (k : String) : Option α :=
  match d with
  | [] => none
  | (k', v') :: rest => if k' = k then some v' else dLookup rest k

/-- Python `defaultdict(set); d[k].add(v)` embedded on association lists
whose values are duplicate-free lists. -/
def dsetAdd (d : List (String × List String)) (k v : String) :
    List (String × List String) :=
  match d with
  | [] => [(k, [v])]
  | (k', s) :: rest =>
    if k' = k then (k', if v ∈ s then s else s ++ [v]) :: rest
    else (k', s) :: dsetAdd rest k v

/-- `Taxonomy.taxa`: split the taxonomy string on `;` and strip
whitespace from every segment. -/
def taxa (tax_str : String) : List String :=
  (pySplit tax_str ';').map pyStrip

/-- The loop body of `Taxonomy.taxa_at_ranks`: build
`d[rank_labels[rank]] = taxon` over the enumerated taxa; indexing
`rank_labels` out of range raises IndexError (`.error ()`). -/
def taxaAtRanksLoop : Nat → List String → List (String × String) →
    Except Unit (List (String × String))
  | _, [], d => .ok d
  | r, t :: rest, d =>
    match rank_labels.get? r with
    | none => .error ()
    | some lbl => taxaAtRanksLoop (r + 1) rest (dInsert d lbl t)

/-- `Taxonomy.taxa_at_ranks`: builds the rank-label dictionary but has no
`return` statement, so on normal termination Python returns `None`
(embedded as `.ok none`); an oversized input raises IndexError inside the
loop (embedded as `.error ()`). -/
def taxa_at_ranks (tax_str : String) :
    Except Unit (Option (List (String × String))) :=
  match taxaAtRanksLoop 0 (taxa tax_str) [] with
  | .error e => .error e
  | .ok _d => .ok none

/-- `Taxonomy.check_full`: false when the split string does not have
exactly 7 taxa, and false when some taxon's first three characters differ
from its rank's canonical prefix (the zip is total because the length
test already ensures 7 elements). -/
def check_full (tax_str : String) : Bool :=
  let ts := (pySplit tax_str ';').map pyStrip
  if ts.length ≠ rank_prefixes.length then false
  else (ts.zip rank_prefixes).all fun tp => pyTake3 tp.1 == tp.2

/-- The cursor walk of `Taxonomy.fill_missing_ranks` over the canonical
rank prefix list: emit the input taxon and advance when its first three
characters match the expected rank, otherwise emit a bare prefix without
advancing. -/
def fillGo : List String → List String → List String
  | [], _ => []
  | p :: ps, ts =>
    match ts with
    | [] => p :: fillGo ps []
    | t :: ts' =>
      if pyTake3 t = p then t :: fillGo ps ts' else p :: fillGo ps ts

/-- `Taxonomy.fill_missing_ranks`. -/
def fill_missing_ranks (ts : List String) : List String :=
  fillGo rank_prefixes ts

/-- The taxonomy-string handling of one line of `Taxonomy.read`: rstrip
the field, test its last character (IndexError on an empty field), drop a
single trailing `;` when present, then split and strip. -/
def readTaxString (field : String) : Except Unit (List String) :=
  let tax_str := pyRstrip field
  match tax_str.data.getLast? with
  | none => .error ()
  | some c =>
    let t := if c = ';' then String.mk tax_str.data.dropLast else tax_str
    .ok ((pySplit t ';').map pyStrip)

/-- Python `s[3:]` applied after the `startswith('s__')` test of
`validate_species_name`: strip the species tag when present. -/
def stripSpeciesTag (s : String) : String :=
  if pyStartsWith s "s__" then String.mk (s.data.drop 3) else s

/-- The `require_full` guard of `validate_species_name`: names containing
"candidatus" (case-insensitively) need more than 2 space-separated
tokens, all others more than 1. -/
def missingGenericGuard (test_name : String) : Bool :=
  if strContains (pyLower test_name) "candidatus" then
    decide ((pySplit test_name ' ').length ≤ 2)
  else
    decide ((pySplit test_name ' ').length ≤ 1)

/-- Python `s[0].islower()` guarded by non-emptiness; the embedded
`speciesBlocklist` raises (as Python does on `s[0]`) before consulting
this when the name is empty. -/
def firstCharLower (s : String) : Bool :=
  match s.data with
  | [] => false
  | c :: _ => c.isLower

/-- The tell-tale-sign cascade at the end of `validate_species_name`, in
source order: the ten substring tests, then the lowercase-first-letter
test (Python `test_name[0]` raises IndexError on an empty name), then the
"sp." test. -/
def speciesBlocklist (test_name : String) : Except Unit (Bool × Option String) :=
  if strContains (pyLower test_name) " bacterium" then
    .ok (false, some "name contains the word 'bacterium'")
  else if strContains (pyLower test_name) " archaeon" then
    .ok (false, some "name contains the word 'archaeon'")
  else if strContains (pyLower test_name) " archeaon" then
    .ok (false, some "name contains the word 'archeaon'")
  else if strContains (pyLower test_name) "-like" then
    .ok (false, some "name contains '-like'")
  else if strContains (pyLower test_name) " group " then
    .ok (false, some "name contains 'group'")
  else if strContains (pyLower test_name) " symbiont" then
    .ok (false, some "name contains 'symbiont'")
  else if strContains (pyLower test_name) " endosymbiont" then
    .ok (false, some "name contains 'endosymbiont'")
  else if strContains (pyLower test_name) " taxon" then
    .ok (false, some "name contains 'taxon'")
  else if strContains (pyLower test_name) " cluster" then
    .ok (false, some "name contains 'cluster'")
  else if strContains (pyLower test_name) " of " then
    .ok (false, some "name contains 'of'")
  else
    match test_name.data with
    | [] => .error ()
    | c :: _ =>
      if c.isLower then .ok (false, some "first letter of name is lowercase")
      else if strContains (pyLower test_name) "sp." then
        .ok (false, some "name contains 'sp.'")
      else .ok (true, none)

/-- `Taxonomy.validate_species_name`: returns the `(valid, reason)` pair;
`.error ()` models the IndexError Python raises at `test_name[0]` when an
empty name reaches the final cascade. -/
def validate_species_name (species_name : String)
    (require_full require_prefix : Bool) : Except Unit (Bool × Option String) :=
  if species_name = "s__" then .ok (true, none)
  else if require_prefix && !pyStartsWith species_name "s__" then
    .ok (false, some "name is missing the species prefix")
  else
    let test_name := stripSpeciesTag species_name
    if require_full && missingGenericGuard test_name then
      .ok (false, some "name appears to be missing the generic name")
    else speciesBlocklist test_name

/-- The exclusion test of `taxonomic_consistency`:
`taxa[0] == 'd__Viruses' or '[P]' in taxa[0]`. -/
def excludedRecord (t0 : String) : Bool :=
  t0 == "d__Viruses" || strContains t0 "[P]"

/-- The inner loop of `taxonomic_consistency` over one record:
`r` iterates over ranks pairing `prev = taxa[r-1]` with `t = taxa[r]`.
A bare rank prefix breaks out of the loop; when `report_errors` is set a
taxon whose recorded parent differs from `prev` makes the whole method
return Python `None` (`.ok none`); otherwise (and in any case afterwards)
the record's parent overwrites the recorded one.  Indexing
`rank_prefixes[r]` past the end raises IndexError (`.error ()`). -/
def tcWalk (report_errors : Bool) : Nat → String → List String →
    List (String × String) → Except Unit (Option (List (String × String)))
  | _, _, [], ep => .ok (some ep)
  | r, prev, t :: rest, ep =>
    match rank_prefixes.get? r with
    | none => .error ()
    | some pre =>
      if t = pre then .ok (some ep)
      else
        match dLookup ep t with
        | some v =>
          if report_errors = true ∧ v ≠ prev then .ok none
          else tcWalk report_errors (r + 1) t rest (dInsert ep t prev)
        | none => tcWalk report_errors (r + 1) t rest (dInsert ep t prev)

/-- The record loop of `taxonomic_consistency`: skip excluded records
(`d__Viruses` / `[P]`), thread the `expected_parent` dictionary through
the per-record walks; `taxa[0]` on an empty record raises IndexError. -/
def tcGo (report_errors : Bool) : List (String × List String) →
    List (String × String) → Except Unit (Option (List (String × String)))
  | [], ep => .ok (some ep)
  | (_gid, ts) :: rest, ep =>
    match ts with
    | [] => .error ()
    | t0 :: ts' =>
      if excludedRecord t0 then tcGo report_errors rest ep
      else
        match tcWalk report_errors 1 t0 ts' ep with
        | .error e => .error e
        | .ok none => .ok none
        | .ok (some ep') => tcGo report_errors rest ep'

/-- `Taxonomy.taxonomic_consistency`: `.ok (some ep)` is the returned
`expected_parent` dictionary, `.ok none` the Python `None` returned on a
reported inconsistency, `.error ()` a raised exception. -/
def taxonomic_consistency (taxonomy : List (String × List String))
    (report_errors : Bool) : Except Unit (Option (List (String × String))) :=
  tcGo report_errors taxonomy []

/-- The four diagnostic collections returned by `Taxonomy.validate`, in
return order: `invalid_ranks` (id ↦ joined taxonomy), `invalid_prefixes`
(id ↦ (offending taxon, joined taxonomy)), `invalid_species_name`
(id ↦ (species name, reason)), `invalid_hierarchies`
(taxon ↦ set of asserted parents). -/
structure ValidateResult where
  invalid_ranks : List (String × String)
  invalid_prefixes : List (String × String × String)
  invalid_species_name : List (String × String × Option String)
  invalid_hierarchies : List (String × List String)
deriving DecidableEq, Repr

/-- The prefix-checking loop of `Taxonomy.validate`: return the first
taxon whose first three characters differ from its rank's canonical
value; indexing `rank_prefixes[r]` past rank 7 raises IndexError. -/
def badTaxonScan : Nat → List String → Except Unit (Option String)
  | _, [] => .ok none
  | r, t :: rest =>
    match rank_prefixes.get? r with
    | none => .error ()
    | some pre =>
      if pyTake3 t ≠ pre then .ok (some t) else badTaxonScan (r + 1) rest

/-- The first phase of `Taxonomy.validate` for one record: with
`check_ranks` set, a record without exactly 7 taxa is recorded in
`invalid_ranks` and the remaining per-record checks are skipped
(`continue`); otherwise the prefix scan and the species-name check each
contribute to their own collections. -/
def phase1Record (check_prefixes check_ranks check_species : Bool)
    (ir : List (String × String)) (ip : List (String × String × String))
    (isn : List (String × String × Option String))
    (gid : String) (ts : List String) :
    Except Unit (List (String × String) × List (String × String × String) ×
      List (String × String × Option String)) :=
  if check_ranks = true ∧ ts.length ≠ rank_prefixes.length then
    .ok (dInsert ir gid (pyJoinSemi ts), ip, isn)
  else
    match (if check_prefixes then badTaxonScan 0 ts else .ok none) with
    | .error e => .error e
    | .ok bad =>
      let ip' := match bad with
        | some t => dInsert ip gid (t, pyJoinSemi ts)
        | none => ip
      match (if check_species then
               match ts.get? rank_index_s with
               | some sname =>
                 (validate_species_name sname true true).map fun vr => some (sname, vr)
               | none => .ok none
             else .ok none) with
      | .error e => .error e
      | .ok res =>
        let isn' := match res with
          | some (sname, (false, msg)) => dInsert isn gid (sname, msg)
          | _ => isn
        .ok (ir, ip', isn')

/-- The first record loop of `Taxonomy.validate` folded over the whole
collection. -/
def phase1 (check_prefixes check_ranks check_species : Bool) :
    List (String × List String) →
    List (String × String) → List (String × String × String) →
    List (String × String × Option String) →
    Except Unit (List (String × String) × List (String × String × String) ×
      List (String × String × Option String))
  | [], ir, ip, isn => .ok (ir, ip, isn)
  | (gid, ts) :: rest, ir, ip, isn =>
    match phase1Record check_prefixes check_ranks check_species ir ip isn gid ts with
    | .error e => .error e
    | .ok (ir', ip', isn') => phase1 check_prefixes check_ranks check_species rest ir' ip' isn'

/-- The hierarchy loop of `Taxonomy.validate` over one record: skip bare
prefixes and (without `check_species`) the species rank, then compare the
record's parent with `expected_parent[taxa[r]]` — a missing key raises
KeyError (`.error ()`), a differing parent adds both parents to the
conflict set of `taxa[r]`. -/
def hierRecord (check_species : Bool) (ep : List (String × String)) :
    Nat → String → List String → List (String × List String) →
    Except Unit (List (String × List String))
  | _, _, [], ih => .ok ih
  | r, prev, t :: rest, ih =>
    match rank_prefixes.get? r with
    | none => .error ()
    | some pre =>
      if t = pre then hierRecord check_species ep (r + 1) t rest ih
      else if r = rank_index_s ∧ check_species = false then
        hierRecord check_species ep (r + 1) t rest ih
      else
        match dLookup ep t with
        | none => .error ()
        | some expp =>
          if prev ≠ expp then
            hierRecord check_species ep (r + 1) t rest (dsetAdd (dsetAdd ih t prev) t expp)
          else hierRecord check_species ep (r + 1) t rest ih

/-- The hierarchy record loop of `Taxonomy.validate` over the whole
collection (note: unlike `taxonomic_consistency`, it has no
`d__Viruses`/`[P]` exclusion and `continue`s past bare prefixes rather
than breaking). -/
def phase2 (check_species : Bool) (ep : List (String × String)) :
    List (String × List String) → List (String × List String) →
    Except Unit (List (String × List String))
  | [], ih => .ok ih
  | (_gid, ts) :: rest, ih =>
    match ts with
    | [] => phase2 check_species ep rest ih
    | t0 :: ts' =>
      match hierRecord check_species ep 1 t0 ts' ih with
      | .error e => .error e
      | .ok ih' => phase2 check_species ep rest ih'

/-- `Taxonomy.validate` (the `report_errors` parameter only controls
printing and is omitted).  With `check_hierarchy` set it calls
`taxonomic_consistency(taxonomy, False)` — which never returns Python
`None` (`tc_false_ne_none` below), so the `.ok none` arm is unreachable —
and then runs the conflict loop, whose dictionary lookups can raise
KeyError. -/
def validate (taxonomy : List (String × List String))
    (check_prefixes check_ranks check_hierarchy check_species : Bool) :
    Except Unit ValidateResult :=
  match phase1 check_prefixes check_ranks check_species taxonomy [] [] [] with
  | .error e => .error e
  | .ok (ir, ip, isn) =>
    if check_hierarchy then
      match taxonomic_consistency taxonomy false with
      | .error e => .error e
      | .ok none => .error ()
      | .ok (some ep) =>
        match phase2 check_species ep taxonomy [] with
        | .error e => .error e
        | .ok ih => .ok ⟨ir, ip, isn, ih⟩
    else .ok ⟨ir, ip, isn, []⟩

/-- Python `!=` between `taxa[rank_index]` (a `str`) and the whole
`Taxonomy.rank_prefixes` tuple, as written in `extant_taxa_for_rank`:
values of different types are never equal in Python, so the comparison is
always true. -/
def strNeTuple (_s : String) (_tuple : List String) : Bool := true

/-- The record loop of `Taxonomy.extant_taxa_for_rank`: `taxa[rank_index]`
raises IndexError on a short record; the guard is the (always-true)
string-vs-tuple comparison `strNeTuple`. -/
def extantGo (ri : Nat) : List (String × List String) →
    List (String × List String) → Except Unit (List (String × List String))
  | [], d => .ok d
  | (gid, ts) :: rest, d =>
    match ts.get? ri with
    | none => .error ()
    | some t =>
      if strNeTuple t rank_prefixes then extantGo ri rest (dsetAdd d t gid)
      else extantGo ri rest d

/-- `Taxonomy.extant_taxa_for_rank`: assert the rank label is known
(AssertionError otherwise), then group entity ids by their taxon at that
rank. -/
def extant_taxa_for_rank (rank : String) (taxonomy : List (String × List String)) :
    Except Unit (List (String × List String)) :=
  if rank ∈ rank_labels then
    extantGo (rank_labels.indexOf rank) taxonomy []
  else .error ()

/-- The `(child, parent)` pairs harvested from one record by the
traversal of `taxonomic_consistency`, in loop order: mirrors `tcWalk`
(same break at a bare prefix, same IndexError) but collects the pairs
instead of folding them into the dictionary. -/
def pairsWalk : Nat → String → List String →
    Except Unit (List (String × String))
  | _, _, [] => .ok []
  | r, prev, t :: rest =>
    match rank_prefixes.get? r with
    | none => .error ()
    | some pre =>
      if t = pre then .ok []
      else
        match pairsWalk (r + 1) t rest with
        | .error e => .error e
        | .ok ps => .ok ((t, prev) :: ps)

/-- All `(child, parent)` pairs harvested by `taxonomic_consistency` over
the collection, record by record in processing order, excluded records
skipped. -/
def impliedParentPairs : List (String × List String) →
    Except Unit (List (String × String))
  | [] => .ok []
  | (_gid, ts) :: rest =>
    match ts with
    | [] => .error ()
    | t0 :: ts' =>
      if excludedRecord t0 then impliedParentPairs rest
      else
        match pairsWalk 1 t0 ts' with
        | .error e => .error e
        | .ok ps =>
          match impliedParentPairs rest with
          | .error e => .error e
          | .ok qs => .ok (ps ++ qs)

/-- The parent implied for taxon `t` by the *last* pair of `ps` that
mentions `t`, or `none` when no pair does. -/
def lastImplied (ps : List (String × String)) (t : String) : Option String :=
  ps.foldl (fun acc cp => if cp.1 = t then some cp.2 else acc) none

/-- Folding one `(child, parent)` pair into the dictionary. -/
def dInsertPair (e : List (String × String)) (cp : String × String) :
    List (String × String) :=
  dInsert e cp.1 cp.2

theorem dLookup_dInsert (d : List (String × String)) (k v t : String) :
    dLookup (dInsert d k v) t = if k = t then some v else dLookup d t := by
  induction d with
  | nil => simp [dInsert, dLookup]
  | cons hd rest ih =>
    obtain ⟨k', v'⟩ := hd
    by_cases hk : k' = k
    · subst hk
      by_cases ht : k' = t <;> simp [dInsert, dLookup, ht]
    · by_cases ht : k' = t
      · subst ht
        have : ¬ k = k' := fun h => hk h.symm
        simp [dInsert, dLookup, hk, this]
      · simp [dInsert, dLookup, hk, ht, ih]

theorem dLookup_foldl_pairs (ps : List (String × String))
    (d : List (String × String)) (t : String) :
    dLookup (ps.foldl dInsertPair d) t =
      ps.foldl (fun acc cp => if cp.1 = t then some cp.2 else acc) (dLookup d t) := by
  induction ps generalizing d with
  | nil => rfl
  | cons cp ps ih =>
    obtain ⟨c, p⟩ := cp
    simp only [List.foldl_cons, ih, dInsertPair, dLookup_dInsert]

theorem tcWalk_false_eq_pairsWalk (rest : List String) :
    ∀ (r : Nat) (prev : String) (ep : List (String × String)),
    tcWalk false r prev rest ep =
      (pairsWalk r prev rest).map fun ps => some (ps.foldl dInsertPair ep) := by
  induction rest with
  | nil => intro r prev ep; rfl
  | cons t rest ih =>
    intro r prev ep
    simp only [tcWalk, pairsWalk]
    cases hg : rank_prefixes.get? r with
    | none => rfl
    | some pre =>
      by_cases ht : t = pre
      · simp [ht, Except.map]
      · simp only [ht, if_neg ht, ite_false]
        cases hl : dLookup ep t with
        | none =>
          rw [ih]
          cases pairsWalk (r + 1) t rest with
          | error e => rfl
          | ok ps => simp [Except.map, dInsertPair]
        | some v =>
          rw [ih]
          cases pairsWalk (r + 1) t rest with
          | error e => simp [Except.map]
          | ok ps => simp [Except.map, dInsertPair]

theorem tcGo_false_eq_pairs (recs : List (String × List String)) :
    ∀ (ep : List (String × String)),
    tcGo false recs ep =
      (impliedParentPairs recs).map fun ps => some (ps.foldl dInsertPair ep) := by
  induction recs with
  | nil => intro ep; rfl
  | cons rec rest ih =>
    intro ep
    obtain ⟨gid, ts⟩ := rec
    cases ts with
    | nil => rfl
    | cons t0 ts' =>
      simp only [tcGo, impliedParentPairs]
      by_cases hx : excludedRecord t0
      · simp [hx, ih]
      · simp only [hx, ite_false, tcWalk_false_eq_pairsWalk]
        cases pairsWalk 1 t0 ts' with
        | error e => rfl
        | ok ps =>
          simp only [Except.map, ih]
          cases impliedParentPairs rest with
          | error e => rfl
          | ok qs => simp [Except.map, List.foldl_append]

/-- With `report_errors = False` — the way `validate` calls it —
`taxonomic_consistency` never returns Python `None`, which justifies the
unreachable `.ok none` arm inside the embedded `validate`. -/
theorem tc_false_ne_none (taxonomy : List (String × List String)) :
    taxonomic_consistency taxonomy false ≠ .ok none := by
  unfold taxonomic_consistency
  rw [tcGo_false_eq_pairs]
  cases impliedParentPairs taxonomy <;> simp [Except.map]

theorem fillGo_idem (ps : List String) (hp : ∀ p ∈ ps, pyTake3 p = p) :
    ∀ ts, fillGo ps (fillGo ps ts) = fillGo ps ts := by
  induction ps with
  | nil => intro ts; rfl
  | cons p ps ih =>
    have hp0 : pyTake3 p = p := hp p (List.mem_cons_self p ps)
    have hps : ∀ q ∈ ps, pyTake3 q = q := fun q hq => hp q (List.mem_cons_of_mem p hq)
    intro ts
    cases ts with
    | nil => simp [fillGo, hp0, ih hps]
    | cons t ts' =>
      by_cases h : pyTake3 t = p
      · simp [fillGo, h, ih hps]
      · simp [fillGo, h, hp0, ih hps]

theorem taxaAtRanksLoop_ok (ts : List String) :
    ∀ (r : Nat) (d : List (String × String)),
    r + ts.length ≤ rank_labels.length →
    ∃ d', taxaAtRanksLoop r ts d = .ok d' := by
  induction ts with
  | nil => intro r d _; exact ⟨d, rfl⟩
  | cons t rest ih =>
    intro r d h
    simp only [List.length_cons] at h
    cases hg : rank_labels.get? r with
    | none =>
      have hle : rank_labels.length ≤ r := List.get?_eq_none.mp hg
      omega
    | some lbl =>
      obtain ⟨d', hd⟩ := ih (r + 1) (dInsert d lbl t) (by omega)
      refine ⟨d', ?_⟩
      have hstep : taxaAtRanksLoop r (t :: rest) d =
          match rank_labels.get? r with
          | none => .error ()
          | some lbl => taxaAtRanksLoop (r + 1) rest (dInsert d lbl t) := rfl
      rw [hstep, hg]
      exact hd

end Taxonomy

/-- C1: the claim says the canonical parent recorded in the ParentMap for
a named taxon is the one implied by the *first* record mentioning it and
is never changed by later records.  The code disagrees: the assignment
`expected_parent[taxa[r]] = taxa[r - 1]` runs on every encounter, so with
`report_errors=False` (as `validate` calls it) the collection
`{g1: d__X;p__Y;c__Z, g2: d__X;p__W;c__Z}` leaves `c__Z` mapped to
`p__W`, the parent implied by the *second* record, not `p__Y`. -/
theorem c1_first_seen_counterexample :
    Taxonomy.taxonomic_consistency
      [("g1", ["d__X", "p__Y", "c__Z"]), ("g2", ["d__X", "p__W", "c__Z"])] false
      = .ok (some [("p__Y", "d__X"), ("c__Z", "p__W"), ("p__W", "d__X")]) ∧
    Taxonomy.dLookup [("p__Y", "d__X"), ("c__Z", "p__W"), ("p__W", "d__X")] "c__Z"
      = some "p__W" ∧
    ("p__W" : String) ≠ "p__Y" :=
  ⟨by decide, by decide, by decide⟩

/-- C1 (amended): with `report_errors=False`, the parent recorded in the
returned ParentMap for each taxon is the one implied by the *last*
mention of that taxon in processing order (later records overwrite the
canonical parent). -/
theorem c1_last_seen_parent (taxonomy : List (String × List String))
    (ps ep : List (String × String))
    (hps : Taxonomy.impliedParentPairs taxonomy = .ok ps)
    (hep : Taxonomy.taxonomic_consistency taxonomy false = .ok (some ep))
    (t : String) :
    Taxonomy.dLookup ep t = Taxonomy.lastImplied ps t := by
  unfold Taxonomy.taxonomic_consistency at hep
  rw [Taxonomy.tcGo_false_eq_pairs, hps] at hep
  simp only [Except.map, Except.ok.injEq, Option.some.injEq] at hep
  rw [← hep, Taxonomy.dLookup_foldl_pairs]
  rfl

/-- Witness for `c1_last_seen_parent` at the two-record collection of the
counterexample: the lookup of `c__Z` agrees with the last implied
parent. -/
theorem c1_last_seen_parent_witness :
    Taxonomy.dLookup [("p__Y", "d__X"), ("c__Z", "p__W"), ("p__W", "d__X")] "c__Z" =
      Taxonomy.lastImplied
        [("p__Y", "d__X"), ("c__Z", "p__Y"), ("p__W", "d__X"), ("c__Z", "p__W")] "c__Z" :=
  c1_last_seen_parent
    [("g1", ["d__X", "p__Y", "c__Z"]), ("g2", ["d__X", "p__W", "c__Z"])]
    [("p__Y", "d__X"), ("c__Z", "p__Y"), ("p__W", "d__X"), ("c__Z", "p__W")]
    [("p__Y", "d__X"), ("c__Z", "p__W"), ("p__W", "d__X")]
    (by decide) (by decide) "c__Z"

/-- C2: the claim says `extant_taxa_for_rank` never produces a key equal
to the bare unclassified placeholder.  The code compares
`taxa[rank_index]` (a string) against the whole `rank_prefixes` tuple, a
comparison that is always true in Python, so the bare `p__` placeholder
is grouped like any named taxon: for rank `phylum` and the record
`g1: d__X;p__`, the returned mapping has the key `p__` with member
`g1`. -/
theorem c2_placeholder_grouped :
    Taxonomy.extant_taxa_for_rank "phylum" [("g1", ["d__X", "p__"])]
      = .ok [("p__", ["g1"])] ∧
    ("p__" : String) ∈ Taxonomy.rank_prefixes :=
  ⟨by decide, by decide⟩

/-- C3: the claim says `validate` always runs to completion and returns
the four diagnostic sets.  With hierarchy checking enabled the code
raises `KeyError`: the conflict loop looks up `expected_parent[taxa[r]]`
for *every* record, but `taxonomic_consistency` skipped
`d__Viruses`/`[P]` records entirely and stopped each walk at the first
bare prefix, so taxa seen only there are missing from the dictionary.
Both failure modes are exhibited. -/
theorem c3_validate_raises :
    Taxonomy.validate [("g1", ["d__Viruses", "p__Q"])] true true true true
      = .error () ∧
    Taxonomy.validate [("g1", ["d__X", "p__", "c__Z"])] true true true true
      = .error () :=
  ⟨by decide, by decide⟩

/-- C4: for the two records `A: d__X;p__Y;c__Z` and `B: d__X;p__W;c__Z`,
validation with hierarchy checking reports exactly one conflicting taxon,
`c__Z`, with parent set `{p__Y, p__W}`, in either processing order (the
two computed parent lists are equal as sets). -/
theorem c4_conflict_both_orders :
    Taxonomy.validate
      [("g1", ["d__X", "p__Y", "c__Z"]), ("g2", ["d__X", "p__W", "c__Z"])]
      false false true false
      = .ok ⟨[], [], [], [("c__Z", ["p__Y", "p__W"])]⟩ ∧
    Taxonomy.validate
      [("g2", ["d__X", "p__W", "c__Z"]), ("g1", ["d__X", "p__Y", "c__Z"])]
      false false true false
      = .ok ⟨[], [], [], [("c__Z", ["p__W", "p__Y"])]⟩ ∧
    ∀ x : String, x ∈ ["p__Y", "p__W"] ↔ x ∈ ["p__W", "p__Y"] := by
  refine ⟨by decide, by decide, ?_⟩
  intro x
  simp [or_comm]

/-- C5: the claim says a record failing the rank-count check is still
subject to the prefix and species checks.  The code `continue`s instead:
the record `g1: d__X;Qbad` has a taxon whose first three characters are
not the expected `p__`, yet with both rank and prefix checking enabled
only `invalid_ranks` is populated and `invalid_prefixes` stays empty. -/
theorem c5_skipped_checks_counterexample :
    Taxonomy.validate [("g1", ["d__X", "Qbad"])] true true false false
      = .ok ⟨[("g1", "d__X;Qbad")], [], [], []⟩ ∧
    Taxonomy.pyTake3 "Qbad" ≠ "p__" :=
  ⟨by decide, by decide⟩

/-- C5 (amended): with rank checking enabled, a record without exactly 7
taxa is recorded in the malformed-rank-count set and the prefix and
species checks are skipped for that record, leaving their collections
untouched. -/
theorem c5_rank_count_skips_other_checks (cp cs : Bool)
    (ir : List (String × String)) (ip : List (String × String × String))
    (isn : List (String × String × Option String)) (gid : String)
    (ts : List String) (h : ts.length ≠ 7) :
    Taxonomy.phase1Record cp true cs ir ip isn gid ts =
      .ok (Taxonomy.dInsert ir gid (Taxonomy.pyJoinSemi ts), ip, isn) := by
  unfold Taxonomy.phase1Record
  rw [if_pos ⟨rfl, by simpa [Taxonomy.rank_prefixes] using h⟩]

/-- Witness for `c5_rank_count_skips_other_checks` on a 2-taxon record
with a bad rank tag. -/
theorem c5_rank_count_skips_other_checks_witness :
    Taxonomy.phase1Record true true true [] [] [] "g1" ["d__X", "Qbad"] =
      .ok ([("g1", "d__X;Qbad")], [], []) :=
  c5_rank_count_skips_other_checks true true [] [] [] "g1" ["d__X", "Qbad"]
    (by decide)

/-- C6: the claim says `check_full` is true iff the taxa list has exactly
7 elements, regardless of content.  The code also requires each taxon to
carry its rank's canonical three-character tag: the 7-element string
`a;b;c;d;e;f;g` is rejected. -/
theorem c6_seven_elements_counterexample :
    Taxonomy.check_full "a;b;c;d;e;f;g" = false ∧
    ((Taxonomy.pySplit "a;b;c;d;e;f;g" ';').map Taxonomy.pyStrip).length = 7 :=
  ⟨by decide, by decide⟩

/-- C6 (amended): `check_full` returns true iff the split-and-stripped
string has exactly 7 taxa *and* every taxon's first three characters
equal the canonical tag of its rank. -/
theorem c6_check_full_iff (s : String) :
    Taxonomy.check_full s = true ↔
      ((Taxonomy.pySplit s ';').map Taxonomy.pyStrip).length = 7 ∧
      (((Taxonomy.pySplit s ';').map Taxonomy.pyStrip).zip
          Taxonomy.rank_prefixes).all (fun tp => Taxonomy.pyTake3 tp.1 == tp.2)
        = true := by
  unfold Taxonomy.check_full
  by_cases h : ((Taxonomy.pySplit s ';').map Taxonomy.pyStrip).length = 7
  · simp [h, show Taxonomy.rank_prefixes.length = 7 from rfl]
  · simp [h, show Taxonomy.rank_prefixes.length = 7 from rfl]

/-- C7: the claim attributes the trailing-semicolon strip to the parse
method `taxa`.  It is `read` that strips it: `taxa` splits directly, so
`"d__A;p__B;"` parses to a list with a trailing empty taxon, not to the
two-element list the claim states. -/
theorem c7_trailing_semicolon_counterexample :
    Taxonomy.taxa "d__A;p__B;" = ["d__A", "p__B", ""] ∧
    (["d__A", "p__B", ""] : List String) ≠ ["d__A", "p__B"] :=
  ⟨by decide, by decide⟩

/-- C7 (amended): `taxa` itself performs no trailing-semicolon handling —
`"d__A;p__B;"` yields a trailing empty element — while `read` removes
exactly one trailing semicolon from a line's taxonomy field before
splitting, so the same text read from file yields the two-element
list (and a doubled semicolon still leaves one empty element). -/
theorem c7_read_strips_trailing_semicolon :
    Taxonomy.taxa "d__A;p__B;" = ["d__A", "p__B", ""] ∧
    Taxonomy.readTaxString "d__A;p__B;" = .ok ["d__A", "p__B"] ∧
    Taxonomy.readTaxString "d__A;p__B;;" = .ok ["d__A", "p__B", ""] :=
  ⟨by decide, by decide, by decide⟩

/-- C8: the claim says the "sp." rule is checked before the
lowercase-first-letter rule.  In the code the lowercase test comes first:
`s__abc sp.` contains "sp." and starts lowercase, and the returned reason
is the lowercase one. -/
theorem c8_rule_order_counterexample :
    Taxonomy.validate_species_name "s__abc sp." true true
      = .ok (false, some "first letter of name is lowercase") ∧
    Taxonomy.strContains (Taxonomy.pyLower "abc sp.") "sp." = true ∧
    (some "first letter of name is lowercase" : Option String)
      ≠ some "name contains 'sp.'" :=
  ⟨by decide, by decide, by decide⟩

/-- C8 (amended): the reason returned is that of the first matching rule
in the code's order — the ten substring rules in the listed order, then
the lowercase-first-letter rule, then "sp." — so any species name that
passes the prefix and full-name stages, matches none of the ten substring
rules, starts with a lowercase letter and contains "sp." gets the
lowercase reason. -/
theorem c8_lowercase_precedes_sp (sn : String)
    (h0 : sn ≠ "s__")
    (h1 : Taxonomy.pyStartsWith sn "s__" = true)
    (h2 : Taxonomy.missingGenericGuard (Taxonomy.stripSpeciesTag sn) = false)
    (h3 : Taxonomy.strContains (Taxonomy.pyLower (Taxonomy.stripSpeciesTag sn)) " bacterium" = false)
    (h4 : Taxonomy.strContains (Taxonomy.pyLower (Taxonomy.stripSpeciesTag sn)) " archaeon" = false)
    (h5 : Taxonomy.strContains (Taxonomy.pyLower (Taxonomy.stripSpeciesTag sn)) " archeaon" = false)
    (h6 : Taxonomy.strContains (Taxonomy.pyLower (Taxonomy.stripSpeciesTag sn)) "-like" = false)
    (h7 : Taxonomy.strContains (Taxonomy.pyLower (Taxonomy.stripSpeciesTag sn)) " group " = false)
    (h8 : Taxonomy.strContains (Taxonomy.pyLower (Taxonomy.stripSpeciesTag sn)) " symbiont" = false)
    (h9 : Taxonomy.strContains (Taxonomy.pyLower (Taxonomy.stripSpeciesTag sn)) " endosymbiont" = false)
    (h10 : Taxonomy.strContains (Taxonomy.pyLower (Taxonomy.stripSpeciesTag sn)) " taxon" = false)
    (h11 : Taxonomy.strContains (Taxonomy.pyLower (Taxonomy.stripSpeciesTag sn)) " cluster" = false)
    (h12 : Taxonomy.strContains (Taxonomy.pyLower (Taxonomy.stripSpeciesTag sn)) " of " = false)
    (h13 : Taxonomy.firstCharLower (Taxonomy.stripSpeciesTag sn) = true)
    (h14 : Taxonomy.strContains (Taxonomy.pyLower (Taxonomy.stripSpeciesTag sn)) "sp." = true) :
    Taxonomy.validate_species_name sn true true
      = .ok (false, some "first letter of name is lowercase") := by
  unfold Taxonomy.validate_species_name
  rw [if_neg h0]
  simp only [h1, Bool.not_true, Bool.and_false, Bool.false_eq_true, if_false, h2,
    Bool.and_false, Taxonomy.speciesBlocklist, h3, h4, h5, h6, h7, h8, h9, h10,
    h11, h12, if_false]
  cases hd : (Taxonomy.stripSpeciesTag sn).data with
  | nil => simp [Taxonomy.firstCharLower, hd] at h13
  | cons c cs =>
    have hc : c.isLower = true := by
      unfold Taxonomy.firstCharLower at h13
      rw [hd] at h13
      exact h13
    simp [hd, hc]

/-- Witness for `c8_lowercase_precedes_sp` at `s__gamma sp.`. -/
theorem c8_lowercase_precedes_sp_witness :
    Taxonomy.validate_species_name "s__gamma sp." true true
      = .ok (false, some "first letter of name is lowercase") :=
  c8_lowercase_precedes_sp "s__gamma sp." (by decide) (by decide) (by decide)
    (by decide) (by decide) (by decide) (by decide) (by decide) (by decide)
    (by decide) (by decide) (by decide) (by decide) (by decide) (by decide)

/-- C9: `fill_missing_ranks` is idempotent on every input with at most 7
entries (the proof does not even need the rank-ordering assumption). -/
theorem c9_fill_missing_ranks_idempotent (x : List String) (h : x.length ≤ 7) :
    Taxonomy.fill_missing_ranks (Taxonomy.fill_missing_ranks x)
      = Taxonomy.fill_missing_ranks x :=
  Taxonomy.fillGo_idem Taxonomy.rank_prefixes (by decide) x

/-- Witness for `c9_fill_missing_ranks_idempotent` on a gappy 2-entry
record. -/
theorem c9_fill_missing_ranks_idempotent_witness :
    (["d__A", "c__B"] : List String).length ≤ 7 ∧
    Taxonomy.fill_missing_ranks (Taxonomy.fill_missing_ranks ["d__A", "c__B"])
      = Taxonomy.fill_missing_ranks ["d__A", "c__B"] :=
  ⟨by decide, c9_fill_missing_ranks_idempotent ["d__A", "c__B"] (by decide)⟩

/-- C10: the claim says every call of `taxa_at_ranks` yields None.  Not
quite: an input with more than 7 segments raises IndexError inside the
loop (indexing `rank_labels[rank]`) instead of returning None. -/
theorem c10_overflow_counterexample :
    Taxonomy.taxa_at_ranks "a;b;c;d;e;f;g;h" = .error () ∧
    (Except.error () : Except Unit (Option (List (String × String)))) ≠ .ok none :=
  ⟨by decide, by decide⟩

/-- C10 (amended): for every input whose parsed taxa list has at most 7
elements, `taxa_at_ranks` builds its dictionary and then falls off the
end of the function, returning None. -/
theorem c10_returns_none (s : String) (h : (Taxonomy.taxa s).length ≤ 7) :
    Taxonomy.taxa_at_ranks s = .ok none := by
  obtain ⟨d', hd⟩ := Taxonomy.taxaAtRanksLoop_ok (Taxonomy.taxa s) 0 []
    (by simpa [show Taxonomy.rank_labels.length = 7 from rfl] using h)
  unfold Taxonomy.taxa_at_ranks
  rw [hd]

/-- Witness for `c10_returns_none` at a 2-rank string. -/
theorem c10_returns_none_witness :
    (Taxonomy.taxa "d__A;p__B").length ≤ 7 ∧
    Taxonomy.taxa_at_ranks "d__A;p__B" = .ok none :=
  ⟨by decide, c10_returns_none "d__A;p__B" (by decide)⟩

